import Mathlib

/-!
Verification of the AppFlowy-LocalAI plugin runtime: a shallow embedding of the
lifecycle manager (appflowy-plugin/src/manager.rs, core/plugin.rs, util.rs) and
of the local-AI layer (appflowy-local-ai/src), with theorems settling the
spec claims about readiness, registry locking, id allocation, the connect and
init handshake, readiness waits, the download helper, and init idempotence.
-/

deriving instance DecidableEq for Except

namespace AppFlowy

/-- Operating systems distinguished by appflowy-plugin/src/util.rs. -/
inductive OperatingSystem where
  | Unknown
  | Windows
  | Linux
  | MacOS
  | IOS
  | Android
deriving DecidableEq, Repr

/-- OperatingSystem::is_desktop (util.rs 18-23). -/
def OperatingSystem.is_desktop : OperatingSystem → Bool
  | .Windows => true
  | .Linux => true
  | .MacOS => true
  | _ => false

/-- OperatingSystem::is_not_desktop (util.rs 25-27). -/
def OperatingSystem.is_not_desktop (os : OperatingSystem) : Bool :=
  !os.is_desktop

/-- PluginId wraps an i64 (core/plugin.rs 25); modelled as Int. -/
abbrev PluginId := Int

/-- RunningState (core/plugin.rs 64-76). -/
inductive RunningState where
  | Connecting
  | Connected (plugin_id : PluginId)
  | Running (plugin_id : PluginId)
  | Stopped (plugin_id : PluginId)
  | UnexpectedStop (plugin_id : PluginId)
deriving DecidableEq, Repr

/-- RunningState::plugin_id (core/plugin.rs 79-87). -/
def RunningState.plugin_id : RunningState → Option PluginId
  | .Connecting => none
  | .Connected plugin_id => some plugin_id
  | .Running plugin_id => some plugin_id
  | .Stopped plugin_id => some plugin_id
  | .UnexpectedStop plugin_id => some plugin_id

/-- RunningState::is_ready (core/plugin.rs 89-91): matches Running, with no
    platform condition. -/
def RunningState.is_ready : RunningState → Bool
  | .Running _ => true
  | _ => false

/-- RunningState::is_loading (core/plugin.rs 93-98). -/
def RunningState.is_loading : RunningState → Bool
  | .Connecting => true
  | .Connected _ => true
  | _ => false

/-- LLMState (appflowy-local-ai/src/state.rs 5-10). -/
inductive LLMState where
  | Uninitialized
  | Loading
  | Ready (plugin_id : PluginId)
deriving DecidableEq, Repr

/-- LLMState::is_loading (state.rs 20-22). -/
def LLMState.is_loading : LLMState → Bool
  | .Loading => true
  | _ => false

/-- LLMState::is_ready (state.rs 29-36): the os argument models the value of
    get_operating_system at the call site. -/
def LLMState.is_ready (os : OperatingSystem) (s : LLMState) : Bool :=
  if os.is_desktop then
    match s with
    | .Ready _ => true
    | _ => false
  else
    false

/-- The PluginError variants constructed by the sources under verification
    (error.rs itself is not among the sources; the variants and their payloads
    are taken from their construction sites in manager.rs and plugin.rs). -/
inductive PluginError where
  | Internal (msg : String)
  | PluginNotConnected
deriving DecidableEq, Repr

/-- A message written to a plugin process over its standard input: either a
    fire-and-forget rpc notification or a blocking rpc request. -/
inductive WireMsg where
  | notification (method : String)
  | request (method : String)
deriving DecidableEq, Repr

/-- Observable events of the manager layer, used to express ordering and
    lock-scope properties of remove_plugin, create_plugin and init_plugin. -/
inductive Event where
  | lockAcquire
  | lockRelease
  | allocId (id : PluginId)
  | procSpawn
  | stateChange (s : RunningState)
  | sentToProcess (m : WireMsg)
  | registryInsert (id : PluginId)
  | registryRemove (id : PluginId)
  | logWarn
  | logInfo
  | logError
deriving DecidableEq, Repr

/-- A registry entry: the Plugin handle of core/plugin.rs 104-112 restricted to
    the fields the registry operations read (the id and the name). -/
structure Plugin where
  id : PluginId
  name : String
deriving DecidableEq, Repr

/-- PluginState (manager.rs 133-135): the lock-guarded list of live plugins. -/
structure PluginState where
  plugins : List Plugin
deriving DecidableEq, Repr

/-- PluginManager (manager.rs 18-22). -/
structure PluginManager where
  state : PluginState
  plugin_id_counter : Int
  operating_system : OperatingSystem
deriving DecidableEq, Repr

/-- i64 wrap-around: AtomicI64::fetch_add wraps on overflow.  9223372036854775808
    is 2 to the 63rd power, 18446744073709551616 is 2 to the 64th. -/
def wrap64 (x : Int) : Int :=
  (x + 9223372036854775808) % 18446744073709551616 - 9223372036854775808

/-- plugins.iter().position(|p| p.id == id) followed by Vec::remove(idx)
    (manager.rs 159-162): removes the first entry carrying the given id and
    returns it; an absent id leaves the list unchanged. -/
def removeById : List Plugin → PluginId → List Plugin × Option Plugin
  | [], _ => ([], none)
  | p :: ps, id =>
    if p.id = id then
      (ps, some p)
    else
      let r := removeById ps id
      (p :: r.1, r.2)

/-- Plugin::shutdown (core/plugin.rs 176-185): one blocking "shutdown" request;
    the rpcOk flag is the outcome of that request, which is only logged. -/
def Plugin.shutdown_events (rpcOk : Bool) : List Event :=
  [.sentToProcess (.request "shutdown"), if rpcOk then .logInfo else .logError]

/-- PluginState::plugin_disconnect (manager.rs 150-171): remove the first entry
    with the id and send it the best-effort shutdown; an unknown id only logs a
    warning. -/
def PluginState.plugin_disconnect (s : PluginState) (id : PluginId) (shutdownRpcOk : Bool) :
    PluginState × Option Plugin × List Event :=
  match removeById s.plugins id with
  | (rest, some p) => (⟨rest⟩, some p, .registryRemove id :: Plugin.shutdown_events shutdownRpcOk)
  | (rest, none) => (⟨rest⟩, none, [.logWarn])

/-- PluginManager::remove_plugin (manager.rs 68-78).  The MutexGuard returned by
    self.state.lock() lives to the end of the statement, so the whole
    plugin_disconnect call - the blocking shutdown request included - runs
    between lockAcquire and lockRelease. -/
def PluginManager.remove_plugin (m : PluginManager) (id : PluginId) (shutdownRpcOk : Bool) :
    Except PluginError Unit × PluginManager × List Event :=
  if m.operating_system.is_not_desktop then
    (.error (.Internal "plugin not supported on this platform"), m, [])
  else
    let r := m.state.plugin_disconnect id shutdownRpcOk
    (.ok (), { m with state := r.1 }, .lockAcquire :: r.2.2 ++ [.lockRelease])

/-- PluginManager::get_plugin (manager.rs 57-65). -/
def PluginManager.get_plugin (m : PluginManager) (id : PluginId) : Except PluginError Plugin :=
  match m.state.plugins.find? (fun p => p.id == id) with
  | some p => .ok p
  | none => .error .PluginNotConnected

/-- Outcome of the spawn performed inside start_plugin_process (core/plugin.rs
    198-276): the host thread may fail to spawn (create_plugin returns that
    error), the child command may fail (logged; the id is still returned), or
    both succeed (the plugin is inserted into the registry and the Connected
    state is broadcast). -/
inductive SpawnOutcome where
  | threadFail
  | processFail
  | ok
deriving DecidableEq, Repr

/-- PluginManager::create_plugin (manager.rs 41-55) together with the effects of
    start_plugin_process (core/plugin.rs 198-276) under the given spawn
    outcome.  The platform test precedes the fetch_add on the id counter; on the
    success path the process writes begin with the "ping" notification, then the
    plugin is inserted under the registry lock and Connected is broadcast. -/
def PluginManager.create_plugin (m : PluginManager) (name : String) (spawn : SpawnOutcome) :
    Except PluginError PluginId × PluginManager × List Event :=
  if m.operating_system.is_not_desktop then
    (.error (.Internal "plugin not supported on this platform"), m, [])
  else
    let plugin_id := m.plugin_id_counter
    let m1 : PluginManager := { m with plugin_id_counter := wrap64 (m.plugin_id_counter + 1) }
    match spawn with
    | .threadFail =>
      (.error (.Internal "thread spawn failed"), m1, [.allocId plugin_id])
    | .processFail =>
      (.ok plugin_id, m1,
        [.allocId plugin_id, .procSpawn, .lockAcquire, .logError, .lockRelease])
    | .ok =>
      let m2 : PluginManager := { m1 with state := ⟨m1.state.plugins ++ [⟨plugin_id, name⟩]⟩ }
      (.ok plugin_id, m2,
        [.allocId plugin_id, .procSpawn, .stateChange .Connecting,
         .sentToProcess (.notification "ping"), .lockAcquire, .registryInsert plugin_id,
         .lockRelease, .stateChange (.Connected plugin_id)])

/-- PluginManager::init_plugin (manager.rs 80-99): resolves the plugin under the
    registry lock, then sends the blocking "initialize" request outside it. -/
def PluginManager.init_plugin (m : PluginManager) (id : PluginId) :
    Except PluginError Unit × List Event :=
  if m.operating_system.is_not_desktop then
    (.error (.Internal "plugin not supported on this platform"), [])
  else
    match m.get_plugin id with
    | .ok _ => (.ok (), [.lockAcquire, .lockRelease, .sentToProcess (.request "initialize")])
    | .error e => (.error e, [.lockAcquire, .lockRelease])

/-- The event trace of create_plugin followed by init_plugin on the allocated
    id: the call pattern of every caller in appflowy-local-ai (llm_chat.rs
    173 and 210, llm_embedding.rs 59-60, embedding_plugin.rs 56-69,
    chat_plugin.rs 204-258). -/
def connect_then_init_events (m : PluginManager) (name : String) : List Event :=
  let c := m.create_plugin name .ok
  match c.1 with
  | .ok id => c.2.2 ++ (c.2.1.init_plugin id).2
  | .error _ => c.2.2

/-- The wire messages among a list of events, in order. -/
def sentMsgs (evs : List Event) : List WireMsg :=
  evs.filterMap (fun e =>
    match e with
    | .sentToProcess m => some m
    | _ => none)

/-- The events strictly after the first registry insert, that is after the
    successful connect. -/
def eventsAfterConnect (evs : List Event) : List Event :=
  (evs.dropWhile (fun e =>
    match e with
    | .registryInsert _ => false
    | _ => true)).drop 1

/-- Whether some blocking request to a plugin process happens while the registry
    lock is held (lock depth positive), starting from the given depth. -/
def requestWhileLocked : List Event → Nat → Bool
  | [], _ => false
  | .lockAcquire :: es, d => requestWhileLocked es (d + 1)
  | .lockRelease :: es, d => requestWhileLocked es (d - 1)
  | .sentToProcess (.request _) :: es, d => decide (0 < d) || requestWhileLocked es d
  | _ :: es, d => requestWhileLocked es d

/-- Result of a readiness wait: success observed after t seconds, or the
    distinct timeout failure raised after t seconds. -/
inductive WaitResult where
  | ok (t : Nat)
  | timeoutErr (t : Nat)
deriving DecidableEq, Repr

/-- LocalChatLLMChat::wait_until_plugin_ready (chat_plugin.rs 274-298), time
    discretized in seconds.  When the current state is not loading the function
    returns at once; otherwise the arrivals list holds the (time, state) pairs
    delivered by the running-state watch channel, in order, and the surrounding
    tokio timeout fires at 30 s when no state received before then is ready. -/
def wait_until_plugin_ready (current : RunningState)
    (arrivals : List (Nat × RunningState)) : WaitResult :=
  if !current.is_loading then
    .ok 0
  else
    match arrivals.find? (fun a => a.2.is_ready) with
    | some a => if a.1 < 30 then .ok a.1 else .timeoutErr 30
    | none => .timeoutErr 30

/-- LocalEmbedding::wait_plugin_ready (llm_embedding.rs 90-114), discretized the
    same way; the os argument models get_operating_system inside
    LLMState::is_ready. -/
def wait_plugin_ready (os : OperatingSystem) (current : LLMState)
    (arrivals : List (Nat × LLMState)) : WaitResult :=
  if !current.is_loading then
    .ok 0
  else
    match arrivals.find? (fun a => LLMState.is_ready os a.2) with
    | some a => if a.1 < 30 then .ok a.1 else .timeoutErr 30
    | none => .timeoutErr 30

/-- An HTTP response as consumed by download_plugin (plugin_request.rs): whether
    the status is a success, the optional content length, and the body chunks
    in order (some size for a delivered chunk, none for a mid-stream transfer
    error). -/
structure HttpResponse where
  status_success : Bool
  content_length : Option Nat
  chunks : List (Option Nat)
deriving DecidableEq, Repr

/-- File-system effects of download_plugin. -/
inductive FsEvent where
  | createFile (path : String)
  | writeFile (path : String) (bytes : Nat)
  | syncAll (path : String)
  | renameFile (src : String) (dst : String)
  | removeFile (path : String)
deriving DecidableEq, Repr

/-- Whether the cancellation token (cancelAt = the loop iteration from which the
    token reads as cancelled; none = no token) is observed cancelled at
    iteration i. -/
def cancelledAt (cancelAt : Option Nat) (i : Nat) : Bool :=
  match cancelAt with
  | some k => decide (k ≤ i)
  | none => false

/-- The chunk loop of download_plugin (plugin_request.rs 39-56): for each
    arriving chunk the token is checked first (deleting the part file and
    failing when cancelled), then the chunk either fails the transfer or is
    written to the part file.  Returns the file events and the error, if any. -/
def dl_loop (part_path : String) (cancelAt : Option Nat) :
    Nat → List (Option Nat) → List FsEvent × Option String
  | _, [] => ([], none)
  | i, c :: cs =>
    if cancelledAt cancelAt i then
      ([.removeFile part_path], some "Download canceled")
    else
      match c with
      | none => ([], some "transfer error")
      | some n =>
        let r := dl_loop part_path cancelAt (i + 1) cs
        (.writeFile part_path n :: r.1, r.2)

/-- download_plugin (plugin_request.rs 14-65) over the abstract response:
    status check, mandatory content length, part-file creation, the chunk loop,
    then sync and rename to the final path on success. -/
def download_plugin (plugin_dir file_name : String) (resp : HttpResponse)
    (cancelAt : Option Nat) : Except String String × List FsEvent :=
  if !resp.status_success then
    (.error "Failed to download file", [])
  else
    match resp.content_length with
    | none => (.error "Failed to get content length", [])
    | some _total =>
      let part_path := plugin_dir ++ "/" ++ file_name ++ ".part"
      let final_path := plugin_dir ++ "/" ++ file_name
      let r := dl_loop part_path cancelAt 0 resp.chunks
      match r.2 with
      | some e => (.error e, .createFile part_path :: r.1)
      | none =>
        (.ok final_path,
          .createFile part_path :: r.1 ++ [.syncAll part_path, .renameFile part_path final_path])

/-- EmbeddingPluginConfig (llm_embedding.rs 117-121), paths as strings. -/
structure EmbeddingPluginConfig where
  bin_path : String
  model_path : String
deriving DecidableEq, Repr

/-- ChatPluginConfig (llm_chat.rs 270-275), paths as strings. -/
structure ChatPluginConfig where
  chat_bin_path : String
  chat_model_path : String
  device : String
deriving DecidableEq, Repr

/-- A call made against the shared plugin manager. -/
inductive MgrCall where
  | createPlugin (name : String)
  | initPlugin (id : PluginId)
  | removePlugin (id : PluginId)
deriving DecidableEq, Repr

/-- Observable outcome of one init call of the local-AI layer: the returned
    result, the LLMState and the stored config cell afterwards, and the manager
    calls made, in order. -/
structure InitOut (Cfg : Type) where
  result : Except PluginError Unit
  state : LLMState
  plugin_config : Option Cfg
  calls : List MgrCall

/-- LocalEmbedding::init_embedding_plugin (llm_embedding.rs 36-69).  stored is
    the current plugin_config cell, createRes and initRes the outcomes of the
    two manager calls of the non-early path.  The early return fires when the
    stored config equals the new one; the function never writes the config
    cell. -/
def init_embedding_plugin (stored : Option EmbeddingPluginConfig) (state : LLMState)
    (config : EmbeddingPluginConfig) (createRes : Except PluginError PluginId)
    (initRes : Except PluginError Unit) : InitOut EmbeddingPluginConfig :=
  if stored = some config then
    { result := .ok (), state := state, plugin_config := stored, calls := [] }
  else
    match createRes with
    | .error e =>
      { result := .error e, state := .Loading, plugin_config := stored,
        calls := [.createPlugin "embedding"] }
    | .ok plugin_id =>
      match initRes with
      | .error e =>
        { result := .error e, state := .Loading, plugin_config := stored,
          calls := [.createPlugin "embedding", .initPlugin plugin_id] }
      | .ok _ =>
        { result := .ok (), state := .Ready plugin_id, plugin_config := stored,
          calls := [.createPlugin "embedding", .initPlugin plugin_id] }

/-- LocalChatLLMChat::init_chat_plugin (llm_chat.rs 143-215).  The early return
    fires when LLMState::is_ready holds and the stored config equals the new
    one.  Otherwise destroy_chat_plugin runs (remove_plugin when the state
    holds a plugin id, then state Uninitialized), the state is set to Loading,
    the plugin is re-created, the per-platform params are built (failing on a
    non-desktop system), the plugin is initialized, and on success the config
    is stored and the state becomes Ready. -/
def init_chat_plugin (os : OperatingSystem) (state : LLMState)
    (stored : Option ChatPluginConfig) (config : ChatPluginConfig)
    (createRes : Except PluginError PluginId) (initRes : Except PluginError Unit) :
    InitOut ChatPluginConfig :=
  if LLMState.is_ready os state && decide (stored = some config) then
    { result := .ok (), state := state, plugin_config := stored, calls := [] }
  else
    let destroyCalls : List MgrCall :=
      match state with
      | .Ready id => [.removePlugin id]
      | _ => []
    match createRes with
    | .error e =>
      { result := .error e, state := .Loading, plugin_config := stored,
        calls := destroyCalls ++ [.createPlugin "chat_plugin"] }
    | .ok plugin_id =>
      if os.is_desktop then
        match initRes with
        | .error e =>
          { result := .error e, state := .Loading, plugin_config := stored,
            calls := destroyCalls ++ [.createPlugin "chat_plugin", .initPlugin plugin_id] }
        | .ok _ =>
          { result := .ok (), state := .Ready plugin_id, plugin_config := some config,
            calls := destroyCalls ++ [.createPlugin "chat_plugin", .initPlugin plugin_id] }
      else
        { result := .error (.Internal "Unsupported operating system"), state := .Loading,
          plugin_config := stored,
          calls := destroyCalls ++ [.createPlugin "chat_plugin"] }

/-- One manager operation of a create/remove sequence. -/
inductive Op where
  | create (spawn : SpawnOutcome)
  | remove (id : PluginId)
deriving DecidableEq, Repr

/-- Run a sequence of create/remove operations against a manager, collecting
    the successfully allocated plugin ids in order. -/
def runOps : PluginManager → List Op → PluginManager × List PluginId
  | m, [] => (m, [])
  | m, Op.create s :: ops =>
    let c := m.create_plugin "p" s
    let r := runOps c.2.1 ops
    match c.1 with
    | .ok id => (r.1, id :: r.2)
    | .error _ => (r.1, r.2)
  | m, Op.remove id :: ops =>
    let d := m.remove_plugin id true
    runOps d.2.1 ops

/-- Number of create operations in a sequence. -/
def countCreates : List Op → Nat
  | [] => 0
  | Op.create _ :: ops => countCreates ops + 1
  | Op.remove _ :: ops => countCreates ops

/-! ## Helper lemmas -/

theorem is_not_desktop_eq_false {os : OperatingSystem} (h : os.is_desktop = true) :
    os.is_not_desktop = false := by
  simp [OperatingSystem.is_not_desktop, h]

theorem wrap64_eq_self {x : Int} (h0 : 0 ≤ x) (h1 : x < 9223372036854775808) :
    wrap64 x = x := by
  unfold wrap64
  rw [Int.emod_eq_of_lt (by omega) (by omega)]
  omega

theorem removeById_eq_of_not_mem {l : List Plugin} {id : PluginId}
    (h : ∀ p ∈ l, p.id ≠ id) : removeById l id = (l, none) := by
  induction l with
  | nil => rfl
  | cons p ps ih =>
    have hp : p.id ≠ id := h p (List.mem_cons_self _ _)
    simp [removeById, hp, ih (fun q hq => h q (List.mem_cons_of_mem _ hq))]

theorem removeById_some_of_mem {l : List Plugin} {id : PluginId}
    (h : ∃ p ∈ l, p.id = id) :
    ∃ q rest, removeById l id = (rest, some q) ∧ q.id = id := by
  induction l with
  | nil => simp at h
  | cons p ps ih =>
    by_cases hp : p.id = id
    · exact ⟨p, ps, by simp [removeById, hp], hp⟩
    · obtain ⟨q, hq, hqid⟩ := h
      rcases List.mem_cons.mp hq with rfl | hq2
      · exact absurd hqid hp
      · obtain ⟨q2, rest, hrec, hqid2⟩ := ih ⟨q, hq2, hqid⟩
        exact ⟨q2, p :: rest, by simp [removeById, hp, hrec], hqid2⟩

theorem removeById_length {l : List Plugin} {id : PluginId}
    (h : (removeById l id).2.isSome = true) :
    (removeById l id).1.length + 1 = l.length := by
  induction l with
  | nil => simp [removeById] at h
  | cons p ps ih =>
    by_cases hp : p.id = id
    · simp [removeById, hp]
    · simp [removeById, hp] at h ⊢
      exact ih h

theorem removeById_fst_not_mem_id {l : List Plugin} {id : PluginId}
    (hnodup : (l.map Plugin.id).Nodup) :
    ∀ p ∈ (removeById l id).1, p.id ≠ id := by
  induction l with
  | nil => simp [removeById]
  | cons p ps ih =>
    rw [List.map_cons, List.nodup_cons] at hnodup
    by_cases hp : p.id = id
    · simp only [removeById, if_pos hp]
      intro q hq hqid
      exact hnodup.1 (List.mem_map.mpr ⟨q, hq, by rw [hqid, hp]⟩)
    · simp only [removeById, if_neg hp]
      intro q hq
      rcases List.mem_cons.mp hq with rfl | hq2
      · exact hp
      · exact ih hnodup.2 q hq2

theorem plugin_disconnect_fst (s : PluginState) (id : PluginId) (sOk : Bool) :
    (s.plugin_disconnect id sOk).1 = ⟨(removeById s.plugins id).1⟩ := by
  rcases h : removeById s.plugins id with ⟨rest, _ | p⟩ <;>
    simp [PluginState.plugin_disconnect, h]

theorem remove_plugin_counter (m : PluginManager) (id : PluginId) (sOk : Bool) :
    (m.remove_plugin id sOk).2.1.plugin_id_counter = m.plugin_id_counter := by
  unfold PluginManager.remove_plugin
  split <;> simp

theorem get_plugin_eq_error {m : PluginManager} {id : PluginId}
    (h : ∀ p ∈ m.state.plugins, p.id ≠ id) :
    m.get_plugin id = .error .PluginNotConnected := by
  unfold PluginManager.get_plugin
  have hfind : m.state.plugins.find? (fun p => p.id == id) = none := by
    rw [List.find?_eq_none]
    intro p hp
    simpa using h p hp
  rw [hfind]

/-! ## C1: the readiness predicate and the platform gate -/

/-- C1 counterexample: the claim states that is_ready is false for every state,
    Running included, on a non-desktop platform; but RunningState::is_ready
    (core/plugin.rs 89-91) holds on Running with no platform condition at all,
    while the platform gate of the claim only exists in LLMState::is_ready,
    whose ready state is Ready, not Running. -/
theorem c1_counterexample :
    RunningState.is_ready (RunningState.Running 0) = true ∧
    OperatingSystem.is_desktop OperatingSystem.Android = false ∧
    LLMState.is_ready OperatingSystem.Android (LLMState.Ready 0) = false :=
  ⟨rfl, rfl, rfl⟩

/-- C1 (amended): RunningState::is_ready holds exactly on Running, with no
    platform condition; the platform-gated readiness predicate is
    LLMState::is_ready, which holds exactly when the state is Ready and the
    host platform is a supported desktop platform — hence it is false for every
    LLMState on any non-desktop platform. -/
theorem c1_is_ready_characterization :
    (∀ s : RunningState, s.is_ready = true ↔ ∃ id, s = RunningState.Running id) ∧
    (∀ (os : OperatingSystem) (s : LLMState),
      LLMState.is_ready os s = true ↔ (os.is_desktop = true ∧ ∃ id, s = LLMState.Ready id)) := by
  constructor
  · intro s
    cases s <;> simp [RunningState.is_ready]
  · intro os s
    cases s <;> cases hos : os.is_desktop <;> simp [LLMState.is_ready, hos]

/-! ## C2: lock scope of remove_plugin -/

/-- C2 counterexample: for a one-plugin manager on Linux, remove_plugin performs
    the blocking "shutdown" request while the registry lock is held — the
    MutexGuard produced by self.state.lock() lives for the whole
    plugin_disconnect statement (manager.rs 76), and plugin_disconnect calls
    Plugin::shutdown inside it (manager.rs 163). -/
theorem c2_counterexample :
    requestWhileLocked
      (PluginManager.remove_plugin ⟨⟨[⟨0, "chat_plugin"⟩]⟩, 1, OperatingSystem.Linux⟩ 0 true).2.2 0
      = true := by decide

/-- C2 (amended): get_plugin and the connect insert are point-sized critical
    sections, but remove_plugin on a present id performs the blocking
    "shutdown" request to the removed plugin while the registry lock is held;
    when the id is absent, remove_plugin sends no message at all. -/
theorem c2_remove_plugin_lock (m : PluginManager) (id : PluginId) (sOk : Bool)
    (hd : m.operating_system.is_desktop = true) :
    ((∃ p ∈ m.state.plugins, p.id = id) →
      requestWhileLocked (m.remove_plugin id sOk).2.2 0 = true) ∧
    ((∀ p ∈ m.state.plugins, p.id ≠ id) →
      sentMsgs (m.remove_plugin id sOk).2.2 = []) := by
  constructor
  · intro h
    obtain ⟨q, rest, hrm, _⟩ := removeById_some_of_mem h
    simp [PluginManager.remove_plugin, is_not_desktop_eq_false hd,
      PluginState.plugin_disconnect, hrm, Plugin.shutdown_events, requestWhileLocked]
  · intro h
    simp [PluginManager.remove_plugin, is_not_desktop_eq_false hd,
      PluginState.plugin_disconnect, removeById_eq_of_not_mem h, sentMsgs]

/-- C2 witness: the amended lock-scope facts at concrete managers, one with the
    id present and one with it absent. -/
theorem c2_remove_plugin_lock_witness :
    requestWhileLocked
      (PluginManager.remove_plugin ⟨⟨[⟨7, "p"⟩]⟩, 8, OperatingSystem.MacOS⟩ 7 false).2.2 0 = true ∧
    sentMsgs (PluginManager.remove_plugin ⟨⟨[⟨7, "p"⟩]⟩, 8, OperatingSystem.MacOS⟩ 9 true).2.2 = [] :=
  ⟨(c2_remove_plugin_lock ⟨⟨[⟨7, "p"⟩]⟩, 8, OperatingSystem.MacOS⟩ 7 false (by decide)).1
      ⟨⟨7, "p"⟩, by decide, by decide⟩,
    (c2_remove_plugin_lock ⟨⟨[⟨7, "p"⟩]⟩, 8, OperatingSystem.MacOS⟩ 9 true (by decide)).2
      (by decide)⟩

/-! ## C3: get_plugin after removal -/

/-- C3: get_plugin fails with the PluginNotConnected error whenever the id is
    absent from the registry; in particular, on a registry with distinct ids,
    get_plugin(id) issued after remove_plugin(id) has completed fails with
    PluginNotConnected. -/
theorem c3_get_after_remove_not_connected (m : PluginManager) (id : PluginId) (sOk : Bool)
    (hnodup : (m.state.plugins.map Plugin.id).Nodup)
    (hd : m.operating_system.is_desktop = true) :
    PluginManager.get_plugin (m.remove_plugin id sOk).2.1 id = .error .PluginNotConnected ∧
    (∀ m2 : PluginManager, (∀ p ∈ m2.state.plugins, p.id ≠ id) →
      m2.get_plugin id = .error .PluginNotConnected) := by
  constructor
  · apply get_plugin_eq_error
    have hstate : (m.remove_plugin id sOk).2.1.state = ⟨(removeById m.state.plugins id).1⟩ := by
      simp [PluginManager.remove_plugin, is_not_desktop_eq_false hd, plugin_disconnect_fst]
    rw [hstate]
    exact removeById_fst_not_mem_id hnodup
  · intro m2 h
    exact get_plugin_eq_error h

/-- C3 witness: removing plugin 0 from a two-plugin manager and resolving it
    again fails with PluginNotConnected, as does resolving an id that was never
    present. -/
theorem c3_get_after_remove_not_connected_witness :
    PluginManager.get_plugin
      (PluginManager.remove_plugin ⟨⟨[⟨0, "a"⟩, ⟨1, "b"⟩]⟩, 2, OperatingSystem.Linux⟩ 0 true).2.1 0
      = .error .PluginNotConnected ∧
    PluginManager.get_plugin ⟨⟨[⟨1, "b"⟩]⟩, 2, OperatingSystem.Linux⟩ 0
      = .error .PluginNotConnected :=
  ⟨(c3_get_after_remove_not_connected ⟨⟨[⟨0, "a"⟩, ⟨1, "b"⟩]⟩, 2, OperatingSystem.Linux⟩ 0 true
      (by decide) (by decide)).1,
    (c3_get_after_remove_not_connected ⟨⟨[⟨0, "a"⟩, ⟨1, "b"⟩]⟩, 2, OperatingSystem.Linux⟩ 0 true
      (by decide) (by decide)).2 ⟨⟨[⟨1, "b"⟩]⟩, 2, OperatingSystem.Linux⟩ (by decide)⟩

/-! ## C4: remove_plugin is idempotent and always succeeds -/

/-- C4: on a desktop host remove_plugin returns success for every id and every
    outcome of the best-effort shutdown request; an absent id leaves the
    manager unchanged, logs a warning and sends nothing, while a present id has
    its entry removed (the registry shrinks by one) and is sent the "shutdown"
    request. -/
theorem c4_remove_plugin_idempotent (m : PluginManager) (id : PluginId) (sOk : Bool)
    (hd : m.operating_system.is_desktop = true) :
    (m.remove_plugin id sOk).1 = .ok () ∧
    ((∀ p ∈ m.state.plugins, p.id ≠ id) →
      (m.remove_plugin id sOk).2.1 = m ∧
      Event.logWarn ∈ (m.remove_plugin id sOk).2.2 ∧
      sentMsgs (m.remove_plugin id sOk).2.2 = []) ∧
    ((∃ p ∈ m.state.plugins, p.id = id) →
      (m.remove_plugin id sOk).2.1.state.plugins.length + 1 = m.state.plugins.length ∧
      Event.sentToProcess (WireMsg.request "shutdown") ∈ (m.remove_plugin id sOk).2.2) := by
  refine ⟨?_, ?_, ?_⟩
  · simp [PluginManager.remove_plugin, is_not_desktop_eq_false hd]
  · intro h
    refine ⟨?_, ?_, ?_⟩ <;>
      simp [PluginManager.remove_plugin, is_not_desktop_eq_false hd,
        PluginState.plugin_disconnect, removeById_eq_of_not_mem h, sentMsgs]
  · intro h
    obtain ⟨q, rest, hrm, _⟩ := removeById_some_of_mem h
    constructor
    · have hlen := @removeById_length m.state.plugins id (by rw [hrm]; rfl)
      rw [hrm] at hlen
      simpa [PluginManager.remove_plugin, is_not_desktop_eq_false hd,
        PluginState.plugin_disconnect, hrm] using hlen
    · simp [PluginManager.remove_plugin, is_not_desktop_eq_false hd,
        PluginState.plugin_disconnect, hrm, Plugin.shutdown_events]

/-- C4 witness: removing a present id and an absent id from a concrete manager,
    with both shutdown outcomes. -/
theorem c4_remove_plugin_idempotent_witness :
    (PluginManager.remove_plugin ⟨⟨[⟨0, "a"⟩]⟩, 1, OperatingSystem.Windows⟩ 5 false).1 = .ok () ∧
    (PluginManager.remove_plugin ⟨⟨[⟨0, "a"⟩]⟩, 1, OperatingSystem.Windows⟩ 5 false).2.1
      = ⟨⟨[⟨0, "a"⟩]⟩, 1, OperatingSystem.Windows⟩ ∧
    (PluginManager.remove_plugin ⟨⟨[⟨0, "a"⟩]⟩, 1, OperatingSystem.Windows⟩ 0 true).2.1.state.plugins.length + 1
      = 1 :=
  ⟨(c4_remove_plugin_idempotent ⟨⟨[⟨0, "a"⟩]⟩, 1, OperatingSystem.Windows⟩ 5 false (by decide)).1,
    ((c4_remove_plugin_idempotent ⟨⟨[⟨0, "a"⟩]⟩, 1, OperatingSystem.Windows⟩ 5 false
        (by decide)).2.1 (by decide)).1,
    ((c4_remove_plugin_idempotent ⟨⟨[⟨0, "a"⟩]⟩, 1, OperatingSystem.Windows⟩ 0 true
        (by decide)).2.2 ⟨⟨0, "a"⟩, by decide, by decide⟩).1⟩

/-! ## C5: plugin ids strictly increase -/

theorem runOps_alloc_mono (ops : List Op) :
    ∀ m : PluginManager, 0 ≤ m.plugin_id_counter →
      m.plugin_id_counter + countCreates ops < 9223372036854775808 →
      ((runOps m ops).2.Pairwise (· < ·) ∧
        ∀ a ∈ (runOps m ops).2, m.plugin_id_counter ≤ a) := by
  induction ops with
  | nil =>
    intro m _ _
    simp [runOps]
  | cons op ops ih =>
    intro m h0 hb
    cases op with
    | remove id =>
      have hc := remove_plugin_counter m id true
      have hcc : countCreates (Op.remove id :: ops) = countCreates ops := rfl
      rw [hcc] at hb
      have hrun : runOps m (Op.remove id :: ops) = runOps (m.remove_plugin id true).2.1 ops := by
        simp [runOps]
      rw [hrun]
      obtain ⟨h1, h2⟩ := ih (m.remove_plugin id true).2.1 (by rw [hc]; exact h0)
        (by rw [hc]; exact hb)
      exact ⟨h1, fun a ha => by rw [← hc]; exact h2 a ha⟩
    | create s =>
      have hcc : countCreates (Op.create s :: ops) = countCreates ops + 1 := rfl
      rw [hcc] at hb
      by_cases hd : m.operating_system.is_not_desktop = true
      · have hrun : runOps m (Op.create s :: ops) = runOps m ops := by
          simp [runOps, PluginManager.create_plugin, hd]
        rw [hrun]
        exact ih m h0 (by push_cast at hb ⊢; omega)
      · have hd2 : m.operating_system.is_not_desktop = false := by
          simpa using hd
        have hwrap : wrap64 (m.plugin_id_counter + 1) = m.plugin_id_counter + 1 :=
          wrap64_eq_self (by omega) (by push_cast at hb; omega)
        cases s with
        | threadFail =>
          have hrun : runOps m (Op.create .threadFail :: ops) =
              runOps ⟨m.state, wrap64 (m.plugin_id_counter + 1), m.operating_system⟩ ops := by
            simp [runOps, PluginManager.create_plugin, hd2]
          rw [hrun, hwrap]
          obtain ⟨h1, h2⟩ := ih ⟨m.state, m.plugin_id_counter + 1, m.operating_system⟩
            (by show 0 ≤ m.plugin_id_counter + 1; omega)
            (by show m.plugin_id_counter + 1 + countCreates ops < 9223372036854775808;
                push_cast at hb ⊢; omega)
          refine ⟨h1, fun a ha => ?_⟩
          exact le_trans (le_of_lt (lt_add_one _)) (h2 a ha)
        | processFail =>
          have hrun : runOps m (Op.create .processFail :: ops) =
              ((runOps ⟨m.state, wrap64 (m.plugin_id_counter + 1), m.operating_system⟩ ops).1,
                m.plugin_id_counter ::
                  (runOps ⟨m.state, wrap64 (m.plugin_id_counter + 1), m.operating_system⟩ ops).2) := by
            simp [runOps, PluginManager.create_plugin, hd2]
          rw [hrun, hwrap]
          obtain ⟨h1, h2⟩ := ih ⟨m.state, m.plugin_id_counter + 1, m.operating_system⟩
            (by show 0 ≤ m.plugin_id_counter + 1; omega)
            (by show m.plugin_id_counter + 1 + countCreates ops < 9223372036854775808;
                push_cast at hb ⊢; omega)
          refine ⟨List.Pairwise.cons (fun a ha => ?_) h1, fun a ha => ?_⟩
          · exact Int.lt_iff_add_one_le.mpr (h2 a ha)
          · rcases List.mem_cons.mp ha with rfl | ha2
            · exact le_refl _
            · exact le_trans (le_of_lt (lt_add_one _)) (h2 a ha2)
        | ok =>
          have hrun : runOps m (Op.create .ok :: ops) =
              ((runOps ⟨⟨m.state.plugins ++ [⟨m.plugin_id_counter, "p"⟩]⟩,
                  wrap64 (m.plugin_id_counter + 1), m.operating_system⟩ ops).1,
                m.plugin_id_counter ::
                  (runOps ⟨⟨m.state.plugins ++ [⟨m.plugin_id_counter, "p"⟩]⟩,
                    wrap64 (m.plugin_id_counter + 1), m.operating_system⟩ ops).2) := by
            simp [runOps, PluginManager.create_plugin, hd2]
          rw [hrun, hwrap]
          obtain ⟨h1, h2⟩ := ih ⟨⟨m.state.plugins ++ [⟨m.plugin_id_counter, "p"⟩]⟩,
              m.plugin_id_counter + 1, m.operating_system⟩
            (by show 0 ≤ m.plugin_id_counter + 1; omega)
            (by show m.plugin_id_counter + 1 + countCreates ops < 9223372036854775808;
                push_cast at hb ⊢; omega)
          refine ⟨List.Pairwise.cons (fun a ha => ?_) h1, fun a ha => ?_⟩
          · exact Int.lt_iff_add_one_le.mpr (h2 a ha)
          · rcases List.mem_cons.mp ha with rfl | ha2
            · exact le_refl _
            · exact le_trans (le_of_lt (lt_add_one _)) (h2 a ha2)

/-- C5: starting from a fresh manager (counter 0), across any sequence of
    create and remove operations with fewer create operations than the i64
    counter range allows, the successfully allocated plugin ids are pairwise
    strictly increasing in allocation order — so every allocated id exceeds all
    earlier ones and no id is ever reused, removals included. -/
theorem c5_plugin_ids_strictly_increase (ops : List Op) (m : PluginManager)
    (h0 : m.plugin_id_counter = 0)
    (hb : countCreates ops < 9223372036854775808) :
    (runOps m ops).2.Pairwise (· < ·) ∧ (runOps m ops).2.Nodup := by
  obtain ⟨h1, _⟩ := runOps_alloc_mono ops m (by omega) (by omega)
  exact ⟨h1, h1.imp ne_of_lt⟩

/-- C5 witness: a concrete create/remove/create sequence with a mid-sequence
    spawn failure allocates the ids 0 and 2, strictly increasing and without
    reuse of the removed id 0. -/
theorem c5_plugin_ids_strictly_increase_witness :
    (runOps ⟨⟨[]⟩, 0, OperatingSystem.Linux⟩
      [Op.create .ok, Op.remove 0, Op.create .threadFail, Op.create .ok]).2.Pairwise (· < ·) ∧
    (runOps ⟨⟨[]⟩, 0, OperatingSystem.Linux⟩
      [Op.create .ok, Op.remove 0, Op.create .threadFail, Op.create .ok]).2.Nodup :=
  c5_plugin_ids_strictly_increase
    [Op.create .ok, Op.remove 0, Op.create .threadFail, Op.create .ok]
    ⟨⟨[]⟩, 0, OperatingSystem.Linux⟩ rfl (by decide)

/-! ## C6: the first message sent to a plugin process -/

/-- C6 counterexample: in the connect-then-init trace, the first message
    written to the plugin process is the "ping" notification sent by
    start_plugin_process (core/plugin.rs 234) — not the "initialize" request,
    so a message other than "initialize" does reach the process before the
    "initialize" request. -/
theorem c6_counterexample :
    (sentMsgs (connect_then_init_events ⟨⟨[]⟩, 0, OperatingSystem.Linux⟩ "chat_plugin")).head? =
      some (WireMsg.notification "ping") ∧
    WireMsg.notification "ping" ≠ WireMsg.request "initialize" := by
  decide

/-- C6 (amended): after the successful connect (the registry insert),
    "initialize" is the first — indeed the only — method sent to the plugin
    process; the one message written before it is the "ping" notification sent
    while the connection is being established, before the connect completes. -/
theorem c6_initialize_first_after_connect (m : PluginManager) (name : String)
    (hd : m.operating_system.is_desktop = true) :
    sentMsgs (connect_then_init_events m name) =
      [WireMsg.notification "ping", WireMsg.request "initialize"] ∧
    sentMsgs (eventsAfterConnect (connect_then_init_events m name)) =
      [WireMsg.request "initialize"] := by
  have hd2 := is_not_desktop_eq_false hd
  have hres : (m.create_plugin name .ok).1 = .ok m.plugin_id_counter := by
    simp [PluginManager.create_plugin, hd2]
  have hevs : (m.create_plugin name .ok).2.2 =
      [.allocId m.plugin_id_counter, .procSpawn, .stateChange .Connecting,
        .sentToProcess (.notification "ping"), .lockAcquire,
        .registryInsert m.plugin_id_counter, .lockRelease,
        .stateChange (.Connected m.plugin_id_counter)] := by
    simp [PluginManager.create_plugin, hd2]
  have hmem : (⟨m.plugin_id_counter, name⟩ : Plugin) ∈
      (m.create_plugin name .ok).2.1.state.plugins := by
    simp [PluginManager.create_plugin, hd2]
  have hos : (m.create_plugin name .ok).2.1.operating_system = m.operating_system := by
    simp [PluginManager.create_plugin, hd2]
  have hfind : ((m.create_plugin name .ok).2.1.state.plugins.find?
      (fun p => p.id == m.plugin_id_counter)).isSome = true := by
    rw [List.find?_isSome]
    exact ⟨_, hmem, by simp⟩
  obtain ⟨q, hq⟩ := Option.isSome_iff_exists.mp hfind
  have hinit : ((m.create_plugin name .ok).2.1.init_plugin m.plugin_id_counter).2 =
      [.lockAcquire, .lockRelease, .sentToProcess (.request "initialize")] := by
    simp [PluginManager.init_plugin, hos, hd2, PluginManager.get_plugin, hq]
  have hsplit : connect_then_init_events m name =
      (m.create_plugin name .ok).2.2 ++
        ((m.create_plugin name .ok).2.1.init_plugin m.plugin_id_counter).2 := by
    simp [connect_then_init_events, hres]
  rw [hsplit, hevs, hinit]
  exact ⟨rfl, rfl⟩

/-- C6 witness: the amended handshake order at a concrete manager. -/
theorem c6_initialize_first_after_connect_witness :
    sentMsgs (connect_then_init_events ⟨⟨[]⟩, 0, OperatingSystem.MacOS⟩ "embedding") =
      [WireMsg.notification "ping", WireMsg.request "initialize"] ∧
    sentMsgs (eventsAfterConnect (connect_then_init_events ⟨⟨[]⟩, 0, OperatingSystem.MacOS⟩ "embedding")) =
      [WireMsg.request "initialize"] :=
  c6_initialize_first_after_connect ⟨⟨[]⟩, 0, OperatingSystem.MacOS⟩ "embedding" (by decide)

/-! ## C7: create_plugin platform gate and id allocation -/

/-- C7: on a non-desktop host create_plugin fails fast with the
    platform-unsupported error (manager.rs encodes it as Internal with this
    fixed message) and leaves the manager — id counter included — untouched, so
    no plugin id is allocated; on a desktop host the id equal to the current
    counter value is allocated as the very first step, before the spawn and
    before any connect, the counter is bumped even when the spawn later fails,
    and whenever the host thread spawns the call returns exactly that id. -/
theorem c7_create_plugin_platform (m : PluginManager) (name : String) (spawn : SpawnOutcome) :
    (m.operating_system.is_not_desktop = true →
      m.create_plugin name spawn =
        (.error (.Internal "plugin not supported on this platform"), m, [])) ∧
    (m.operating_system.is_desktop = true →
      (m.create_plugin name spawn).2.2.head? = some (.allocId m.plugin_id_counter) ∧
      (m.create_plugin name spawn).2.1.plugin_id_counter = wrap64 (m.plugin_id_counter + 1) ∧
      (spawn ≠ .threadFail → (m.create_plugin name spawn).1 = .ok m.plugin_id_counter)) := by
  constructor
  · intro h
    simp [PluginManager.create_plugin, h]
  · intro hd
    have hd2 := is_not_desktop_eq_false hd
    refine ⟨?_, ?_, ?_⟩ <;> cases spawn <;> simp [PluginManager.create_plugin, hd2]

/-- C7 witness: the platform failure on Android leaves the manager intact; on
    Linux the first event allocates the current counter value as the id. -/
theorem c7_create_plugin_platform_witness :
    PluginManager.create_plugin ⟨⟨[]⟩, 5, OperatingSystem.Android⟩ "x" .ok =
      (.error (.Internal "plugin not supported on this platform"),
        ⟨⟨[]⟩, 5, OperatingSystem.Android⟩, []) ∧
    (PluginManager.create_plugin ⟨⟨[]⟩, 5, OperatingSystem.Linux⟩ "x" .ok).2.2.head? =
      some (.allocId 5) :=
  ⟨(c7_create_plugin_platform ⟨⟨[]⟩, 5, OperatingSystem.Android⟩ "x" .ok).1 (by decide),
    ((c7_create_plugin_platform ⟨⟨[]⟩, 5, OperatingSystem.Linux⟩ "x" .ok).2 (by decide)).1⟩

/-! ## C8: readiness waits and the 30 s timeout -/

/-- C8 counterexample: a readiness wait started while the chat plugin is in the
    Stopped state — a plugin that never becomes ready — returns success
    immediately (at 0 s) instead of failing with the timeout error at 30 s,
    because wait_until_plugin_ready returns Ok whenever the state is not a
    loading state (chat_plugin.rs 275-277). -/
theorem c8_counterexample :
    wait_until_plugin_ready (RunningState.Stopped 0) [] = WaitResult.ok 0 ∧
    RunningState.is_ready (RunningState.Stopped 0) = false := by
  decide

/-- C8 (amended): a readiness wait started while the state is a loading state,
    against a plugin that never becomes ready, fails with the distinct timeout
    failure exactly 30 s after the wait begins — in both wait variants; a wait
    started in any non-loading state returns success immediately, at 0 s,
    whether or not the plugin is ready. -/
theorem c8_wait_timeout (current : RunningState) (arrivals : List (Nat × RunningState))
    (os : OperatingSystem) (lcurrent : LLMState) (larrivals : List (Nat × LLMState)) :
    (current.is_loading = true → (∀ a ∈ arrivals, a.2.is_ready = false) →
      wait_until_plugin_ready current arrivals = .timeoutErr 30) ∧
    (current.is_loading = false → wait_until_plugin_ready current arrivals = .ok 0) ∧
    (lcurrent.is_loading = true → (∀ a ∈ larrivals, LLMState.is_ready os a.2 = false) →
      wait_plugin_ready os lcurrent larrivals = .timeoutErr 30) ∧
    (lcurrent.is_loading = false → wait_plugin_ready os lcurrent larrivals = .ok 0) := by
  refine ⟨?_, ?_, ?_, ?_⟩
  · intro h1 h2
    have hfind : arrivals.find? (fun a => a.2.is_ready) = none := by
      rw [List.find?_eq_none]
      intro a ha
      simpa using h2 a ha
    simp [wait_until_plugin_ready, h1, hfind]
  · intro h1
    simp [wait_until_plugin_ready, h1]
  · intro h1 h2
    have hfind : larrivals.find? (fun a => LLMState.is_ready os a.2) = none := by
      rw [List.find?_eq_none]
      intro a ha
      simpa using h2 a ha
    simp [wait_plugin_ready, h1, hfind]
  · intro h1
    simp [wait_plugin_ready, h1]

/-- C8 witness: the amended wait semantics at concrete inputs — a loading wait
    that only ever sees non-ready states times out at 30 s, and non-loading
    waits return at once. -/
theorem c8_wait_timeout_witness :
    wait_until_plugin_ready RunningState.Connecting [(5, RunningState.Stopped 1)] =
      WaitResult.timeoutErr 30 ∧
    wait_plugin_ready OperatingSystem.Linux LLMState.Loading [(2, LLMState.Uninitialized)] =
      WaitResult.timeoutErr 30 ∧
    wait_until_plugin_ready (RunningState.UnexpectedStop 4) [] = WaitResult.ok 0 ∧
    wait_plugin_ready OperatingSystem.Linux LLMState.Uninitialized [] = WaitResult.ok 0 :=
  ⟨(c8_wait_timeout RunningState.Connecting [(5, RunningState.Stopped 1)]
      OperatingSystem.Linux LLMState.Loading [(2, LLMState.Uninitialized)]).1
      (by decide) (by decide),
    (c8_wait_timeout RunningState.Connecting [(5, RunningState.Stopped 1)]
      OperatingSystem.Linux LLMState.Loading [(2, LLMState.Uninitialized)]).2.2.1
      (by decide) (by decide),
    (c8_wait_timeout (RunningState.UnexpectedStop 4) [] OperatingSystem.Linux
      LLMState.Uninitialized []).2.1 (by decide),
    (c8_wait_timeout (RunningState.UnexpectedStop 4) [] OperatingSystem.Linux
      LLMState.Uninitialized []).2.2.2 (by decide)⟩

/-! ## C9: the download helper -/

theorem dl_loop_all_ok (part : String) (ns : List Nat) :
    ∀ i, dl_loop part none i (ns.map some) = (ns.map (FsEvent.writeFile part), none) := by
  induction ns with
  | nil =>
    intro i
    rfl
  | cons n ns ih =>
    intro i
    simp [dl_loop, cancelledAt, ih (i + 1)]

theorem dl_loop_cancel (part : String) (ns : List Nat) :
    ∀ i k, k < ns.length →
      dl_loop part (some (i + k)) i (ns.map some) =
        ((ns.take k).map (FsEvent.writeFile part) ++ [.removeFile part],
          some "Download canceled") := by
  induction ns with
  | nil =>
    intro i k hk
    simp at hk
  | cons n ns ih =>
    intro i k hk
    cases k with
    | zero =>
      simp [dl_loop, cancelledAt]
    | succ k2 =>
      have hnc : ¬(i + (k2 + 1) ≤ i) := by omega
      have harith : i + (k2 + 1) = (i + 1) + k2 := by omega
      rw [harith]
      have hrec := ih (i + 1) k2 (by simpa using hk)
      simp [dl_loop, cancelledAt, hrec]
      omega

/-- C9: download_plugin fails before creating any file when the response does
    not carry a content length; with a content length and no cancellation every
    chunk is written to the ".part" path, which is synced and only then renamed
    to the final path; and when the token is observed cancelled mid-transfer
    (before chunk k of a longer body) the partial file is deleted and the
    "Download canceled" error is returned, with no sync and no rename. -/
theorem c9_download_atomic (plugin_dir file_name : String) (resp : HttpResponse)
    (ns : List Nat) (k : Nat) (cancelAt : Option Nat) :
    (resp.status_success = true → resp.content_length = none →
      download_plugin plugin_dir file_name resp cancelAt =
        (.error "Failed to get content length", [])) ∧
    (∀ total, resp.status_success = true → resp.content_length = some total →
      resp.chunks = ns.map some →
      download_plugin plugin_dir file_name resp none =
        (.ok (plugin_dir ++ "/" ++ file_name),
          .createFile (plugin_dir ++ "/" ++ file_name ++ ".part") ::
            ns.map (FsEvent.writeFile (plugin_dir ++ "/" ++ file_name ++ ".part")) ++
            [.syncAll (plugin_dir ++ "/" ++ file_name ++ ".part"),
              .renameFile (plugin_dir ++ "/" ++ file_name ++ ".part")
                (plugin_dir ++ "/" ++ file_name)])) ∧
    (∀ total, resp.status_success = true → resp.content_length = some total →
      resp.chunks = ns.map some → k < ns.length →
      download_plugin plugin_dir file_name resp (some k) =
        (.error "Download canceled",
          .createFile (plugin_dir ++ "/" ++ file_name ++ ".part") ::
            (ns.take k).map (FsEvent.writeFile (plugin_dir ++ "/" ++ file_name ++ ".part")) ++
            [.removeFile (plugin_dir ++ "/" ++ file_name ++ ".part")])) := by
  refine ⟨?_, ?_, ?_⟩
  · intro h1 h2
    simp [download_plugin, h1, h2]
  · intro total h1 h2 h3
    have hl := dl_loop_all_ok (plugin_dir ++ "/" ++ file_name ++ ".part") ns 0
    simp [download_plugin, h1, h2, h3, hl]
  · intro total h1 h2 h3 hk
    have hl := dl_loop_cancel (plugin_dir ++ "/" ++ file_name ++ ".part") ns 0 k hk
    rw [Nat.zero_add] at hl
    simp [download_plugin, h1, h2, h3, hl]

/-- C9 witness: the three download outcomes at concrete responses — a missing
    content length, a clean two-chunk download, and a cancellation before the
    second chunk. -/
theorem c9_download_atomic_witness :
    download_plugin "d" "f" ⟨true, none, [some 3]⟩ none =
      (.error "Failed to get content length", []) ∧
    download_plugin "d" "f" ⟨true, some 9, [some 3, some 4]⟩ none =
      (.ok ("d" ++ "/" ++ "f"),
        .createFile ("d" ++ "/" ++ "f" ++ ".part") ::
          [3, 4].map (FsEvent.writeFile ("d" ++ "/" ++ "f" ++ ".part")) ++
          [.syncAll ("d" ++ "/" ++ "f" ++ ".part"),
            .renameFile ("d" ++ "/" ++ "f" ++ ".part") ("d" ++ "/" ++ "f")]) ∧
    download_plugin "d" "f" ⟨true, some 9, [some 3, some 4]⟩ (some 1) =
      (.error "Download canceled",
        .createFile ("d" ++ "/" ++ "f" ++ ".part") ::
          ([3, 4].take 1).map (FsEvent.writeFile ("d" ++ "/" ++ "f" ++ ".part")) ++
          [.removeFile ("d" ++ "/" ++ "f" ++ ".part")]) :=
  ⟨(c9_download_atomic "d" "f" ⟨true, none, [some 3]⟩ [] 0 none).1 rfl rfl,
    (c9_download_atomic "d" "f" ⟨true, some 9, [some 3, some 4]⟩ [3, 4] 1 none).2.1 9
      rfl rfl rfl,
    (c9_download_atomic "d" "f" ⟨true, some 9, [some 3, some 4]⟩ [3, 4] 1 none).2.2 9
      rfl rfl rfl (by decide)⟩

/-! ## C10: re-initializing with an unchanged config -/

/-- C10: init_embedding_plugin called with a config equal to the stored one
    returns success immediately, making no manager calls and leaving the state
    and the stored config unchanged; init_chat_plugin, called on a desktop host
    in the Ready state with a config equal to the stored one, does the same —
    in particular the held plugin id survives and the registry is untouched. -/
theorem c10_init_same_config_idempotent (state : LLMState) (ecfg : EmbeddingPluginConfig)
    (ccfg : ChatPluginConfig) (id : PluginId) (os : OperatingSystem)
    (cr : Except PluginError PluginId) (ir : Except PluginError Unit)
    (cr2 : Except PluginError PluginId) (ir2 : Except PluginError Unit)
    (hd : os.is_desktop = true) :
    init_embedding_plugin (some ecfg) state ecfg cr ir =
      { result := .ok (), state := state, plugin_config := some ecfg, calls := [] } ∧
    init_chat_plugin os (.Ready id) (some ccfg) ccfg cr2 ir2 =
      { result := .ok (), state := .Ready id, plugin_config := some ccfg, calls := [] } := by
  constructor
  · simp [init_embedding_plugin]
  · simp [init_chat_plugin, LLMState.is_ready, hd]

/-- C10 witness: both early returns at concrete configs on Windows. -/
theorem c10_init_same_config_idempotent_witness :
    init_embedding_plugin (some ⟨"bin", "model"⟩) LLMState.Loading ⟨"bin", "model"⟩
      (.ok 2) (.ok ()) =
      { result := .ok (), state := LLMState.Loading, plugin_config := some ⟨"bin", "model"⟩,
        calls := [] } ∧
    init_chat_plugin OperatingSystem.Windows (.Ready 1) (some ⟨"bin", "model", "cpu"⟩)
      ⟨"bin", "model", "cpu"⟩ (.error .PluginNotConnected) (.ok ()) =
      { result := .ok (), state := .Ready 1, plugin_config := some ⟨"bin", "model", "cpu"⟩,
        calls := [] } :=
  c10_init_same_config_idempotent LLMState.Loading ⟨"bin", "model"⟩ ⟨"bin", "model", "cpu"⟩ 1
    OperatingSystem.Windows (.ok 2) (.ok ()) (.error .PluginNotConnected) (.ok ()) (by decide)

end AppFlowy
